import Mathlib

/-!
Verification of the `arch_dotfiles` configuration-link scripts.

The repository's setup scripts (`scripts/setup-tmux.py`, `scripts/setup-shell.py`,
`scripts/setup-mako.py`, `scripts/setup-claude.py`, `scripts/install-cli-tools.py`,
`scripts/setup-btop.py`) are shallowly embedded here.

Filesystem model: a flat association list from absolute path strings to
entries.  An entry is a regular file, a directory, or a symbolic link.
Directory contents that are only ever copied wholesale (`shutil.copytree`)
are abstracted to a fingerprint string; two directories are content-equal
iff their fingerprints agree.  JSON state files written by the tools are
modelled with structured payload constructors (serialization is injective);
`FileData.malformed` stands for a file whose bytes do not parse as JSON.

Effects: `FsM α := Fs → Option α × Fs` is a state monad with exceptions;
`none` in the first component is a raised Python exception.  Crucially the
state at the raise point is kept (a raised exception does not undo earlier
filesystem mutations), matching the real scripts.  Subprocess collaborators
(`paru`, `starship`) are opaque per the repository design and are passed in
as boolean environment parameters.
-/

namespace Dotfiles

/-- Persisted state of `setup-tmux.py` (`tmux_setup_state.json`):
`{timestamp, backup_info, links_created, repo_root}`. -/
structure TmuxState where
  timestamp : String
  backup_info : List (String × String)
  links_created : List (String × String)
  repo_root : String
deriving Repr, DecidableEq

/-- Persisted state of `setup-shell.py` (`shell_setup_state.json`):
`{timestamp, backups, links, vim_mode, vim_mode_status}`. -/
structure ShellState where
  timestamp : String
  backups : List (String × String)
  links : List (String × String)
  vim_mode : Bool
  vim_mode_status : Bool
deriving Repr, DecidableEq

/-- Persisted state of `setup-mako.py` (`mako_state.json`). -/
structure MakoState where
  timestamp : String
  repo_root : String
  backup_info : List (String × String)
  config_source : String
  config_target : String
deriving Repr, DecidableEq

/-- Persisted state of `install-cli-tools.py`.  History entries are opaque
strings here; only emptiness of the history is inspected by the claims. -/
structure CliState where
  installed_packages : List String
  installation_history : List String
deriving Repr, DecidableEq

/-- Default state returned by `CliToolsInstaller._load_state` when the file
is absent or unparsable. -/
def CliState.default : CliState :=
  { installed_packages := [], installation_history := [] }

/-- Persisted state of `setup-claude.py`. -/
structure ClaudeState where
  setup_timestamp : Option String
  backups : List (String × String)
  symlinks_created : List String
deriving Repr, DecidableEq

/-- Contents of a regular file. -/
inductive FileData where
  | text (s : String)
  | tmuxState (st : TmuxState)
  | shellState (st : ShellState)
  | makoState (st : MakoState)
  | cliState (st : CliState)
  | claudeState (st : ClaudeState)
  | malformed
deriving Repr, DecidableEq

/-- A filesystem entry: regular file, directory (contents abstracted to a
fingerprint copied wholesale by `copytree`), or symbolic link. -/
inductive Entry where
  | file (d : FileData)
  | dir (content : String)
  | symlink (dest : String)
deriving Repr, DecidableEq

/-- Flat filesystem: association list from absolute paths to entries. -/
abbrev Fs := List (String × Entry)

namespace Fs

/-- First binding for path `p`. -/
def lookup : Fs → String → Option Entry
  | [], _ => none
  | (q, e) :: rest, p => if q = p then some e else lookup rest p

/-- Remove any binding for path `p`. -/
def erase (fs : Fs) (p : String) : Fs :=
  fs.filter (fun x => x.1 != p)

/-- Bind path `p` to entry `e` (replacing any previous binding). -/
def insert (fs : Fs) (p : String) (e : Entry) : Fs :=
  (p, e) :: fs.erase p

/-- Chase symlinks for at most `fuel` steps; `none` on a symlink loop. -/
def resolveAux (fs : Fs) : Nat → String → Option String
  | 0, _ => none
  | fuel + 1, p =>
    match fs.lookup p with
    | some (Entry.symlink d) => resolveAux fs fuel d
    | _ => some p

/-- `Path.resolve()`: the final path after following symlinks (the final
path need not exist). -/
def resolve (fs : Fs) (p : String) : Option String :=
  resolveAux fs (fs.length + 1) p

/-- `Path.exists()`: follows symlinks; false for a broken link. -/
def existsP (fs : Fs) (p : String) : Bool :=
  match fs.resolve p with
  | none => false
  | some q => (fs.lookup q).isSome

/-- `Path.is_symlink()`: true iff the entry at `p` itself is a symlink. -/
def is_symlinkP (fs : Fs) (p : String) : Bool :=
  match fs.lookup p with
  | some (Entry.symlink _) => true
  | _ => false

/-- `Path.is_dir()`: follows symlinks. -/
def is_dirP (fs : Fs) (p : String) : Bool :=
  match fs.resolve p with
  | none => false
  | some q =>
    match fs.lookup q with
    | some (Entry.dir _) => true
    | _ => false

/-- `Path.readlink()` as a pure partial read. -/
def readlinkP (fs : Fs) (p : String) : Option String :=
  match fs.lookup p with
  | some (Entry.symlink d) => some d
  | _ => none

end Fs

/-- Split a character list at every occurrence of `c` (the semantics of
`str.split(c)` on a non-empty separator: splitting the empty string gives
one empty piece). -/
def splitChar (c : Char) : List Char → List (List Char)
  | [] => [[]]
  | a :: rest =>
    let r := splitChar c rest
    if a == c then [] :: r
    else
      match r with
      | [] => [[a]]
      | h :: t => (a :: h) :: t

/-- Join character lists with separator `c` between the pieces. -/
def joinChar (c : Char) : List (List Char) → List Char
  | [] => []
  | [x] => x
  | x :: rest => x ++ c :: joinChar c rest

/-- Last component of a path string (`Path.name` / `os.path.basename`). -/
def pathBase (p : String) : String :=
  String.mk ((splitChar '/' p.data).getLastD p.data)

/-- All but the last component (`Path.parent`). -/
def parentOf (p : String) : String :=
  String.mk (joinChar '/' (splitChar '/' p.data).dropLast)

/-- State monad with Python-style exceptions: `none` is a raised exception,
and the filesystem at the raise point is kept. -/
def FsM (α : Type) : Type := Fs → Option α × Fs

namespace FsM

def pureF {α} (a : α) : FsM α := fun fs => (some a, fs)

def bindF {α β} (x : FsM α) (f : α → FsM β) : FsM β := fun fs =>
  match x fs with
  | (some a, fs1) => f a fs1
  | (none, fs1) => (none, fs1)

instance : Monad FsM where
  pure := pureF
  bind := bindF

/-- A raised exception. -/
def fail {α} : FsM α := fun fs => (none, fs)

/-- `try x except: h` — the handler starts from the state at the raise
point (mutations made before the exception stay). -/
def attempt {α} (x h : FsM α) : FsM α := fun fs =>
  match x fs with
  | (some a, fs1) => (some a, fs1)
  | (none, fs1) => h fs1

instance : MonadExceptOf Unit FsM where
  throw _ := fail
  tryCatch x h := attempt x (h ())

def getFs : FsM Fs := fun fs => (some fs, fs)

def setFs (fs : Fs) : FsM Unit := fun _ => (some (), fs)

end FsM

open FsM

/-- `Path.mkdir(parents=True, exist_ok=True)`: no-op when a directory is
already there, creates it when absent, raises when a non-directory
occupies the path.  (Intermediate parent components are not tracked by the
flat model; the scripts create every directory they rely on explicitly.) -/
def mkdirp (p : String) : FsM Unit := do
  let fs ← getFs
  if fs.is_dirP p then pure ()
  else
    match fs.lookup p with
    | none => setFs (fs.insert p (Entry.dir ""))
    | some _ => fail

/-- `Path.unlink()`: removes the entry (a symlink is removed, not its
referent); raises on a missing path or a directory. -/
def unlink (p : String) : FsM Unit := do
  let fs ← getFs
  match fs.lookup p with
  | none => fail
  | some (Entry.dir _) => fail
  | some _ => setFs (fs.erase p)

/-- `shutil.rmtree(p)`: removes a real directory; raises on anything else
(including a symlink to a directory). -/
def rmtree (p : String) : FsM Unit := do
  let fs ← getFs
  match fs.lookup p with
  | some (Entry.dir _) => setFs (fs.erase p)
  | _ => fail

/-- `shutil.copy2(src, dst)`: follows symlinks on both ends; copying onto
an existing directory places the file inside it under `basename(src)`. -/
def copy2 (src dst : String) : FsM Unit := do
  let fs ← getFs
  match fs.resolve src with
  | none => fail
  | some s =>
    match fs.lookup s with
    | some (Entry.file d) =>
      match fs.resolve dst with
      | none => fail
      | some t =>
        match fs.lookup t with
        | some (Entry.dir _) => setFs (fs.insert (t ++ "/" ++ pathBase src) (Entry.file d))
        | some (Entry.file _) => setFs (fs.insert t (Entry.file d))
        | _ => setFs (fs.insert t (Entry.file d))
    | _ => fail

/-- `shutil.copytree(src, dst)`: follows the source link, requires `dst`
not to exist, copies the whole tree (fingerprint). -/
def copytree (src dst : String) : FsM Unit := do
  let fs ← getFs
  match fs.resolve src with
  | none => fail
  | some s =>
    match fs.lookup s with
    | some (Entry.dir c) =>
      match fs.lookup dst with
      | some _ => fail
      | none => setFs (fs.insert dst (Entry.dir c))
    | _ => fail

/-- `Path.symlink_to(dest)`: raises when the path already exists. -/
def symlinkTo (p dest : String) : FsM Unit := do
  let fs ← getFs
  match fs.lookup p with
  | some _ => fail
  | none => setFs (fs.insert p (Entry.symlink dest))

/-- `open(p, 'w')` + write: truncates or creates, writing through a
symlink at `p`; raises on a directory. -/
def writeFile (p : String) (d : FileData) : FsM Unit := do
  let fs ← getFs
  match fs.resolve p with
  | none => fail
  | some t =>
    match fs.lookup t with
    | some (Entry.dir _) => fail
    | _ => setFs (fs.insert t (Entry.file d))

/-- `open(p).read()` / `json.load(open(p))`: reads the (resolved) file's
payload; raises on a missing path or a directory. -/
def readData (p : String) : FsM FileData := do
  let fs ← getFs
  match fs.resolve p with
  | none => fail
  | some t =>
    match fs.lookup t with
    | some (Entry.file d) => pure d
    | _ => fail

/-- `Path.readlink()`: raises on a non-symlink. -/
def readlink (p : String) : FsM String := do
  let fs ← getFs
  match fs.readlinkP p with
  | some d => pure d
  | none => fail

/-- `open(p, 'a')` + write: appends to a text file. -/
def appendText (p : String) (s : String) : FsM Unit := do
  let fs ← getFs
  match fs.resolve p with
  | none => fail
  | some t =>
    match fs.lookup t with
    | some (Entry.file (FileData.text c)) => setFs (fs.insert t (Entry.file (FileData.text (c ++ s))))
    | some (Entry.dir _) => fail
    | some _ => fail
    | none => setFs (fs.insert t (Entry.file (FileData.text s)))

/-- Result value of a run, with a raised-exception default of `false`
(never reached by the top-level `setup`/`rollback` methods, which catch). -/
def runOk (x : FsM Bool) (fs : Fs) : Bool :=
  match x fs with
  | (some b, _) => b
  | (none, _) => false

/-- Final filesystem of a run (kept also when an exception escaped). -/
def runFs {α} (x : FsM α) (fs : Fs) : Fs := (x fs).2

/-- Run each action in order (a Python `for` loop with no early exit). -/
def forEachM {α : Type} (f : α → FsM Unit) : List α → FsM Unit
  | [] => pure ()
  | a :: rest => do
    f a
    forEachM f rest

/-! Embedding of `scripts/setup-tmux.py` (class `TmuxSetup`). -/

/-- Constructor data of `TmuxSetup.__init__`: repository root, dry-run
flag, plus the home directory and the `datetime.now()` timestamp. -/
structure TmuxSetup where
  home : String
  repo_root : String
  dry_run : Bool
  timestamp : String

namespace TmuxSetup

def config_dir (t : TmuxSetup) : String := t.home ++ "/.config/tmux"

def tmux_dir (t : TmuxSetup) : String := t.home ++ "/.tmux"

def backup_dir (t : TmuxSetup) : String := t.home ++ "/.local/share/arch_dotfiles/backups"

def state_file (t : TmuxSetup) : String :=
  t.home ++ "/.local/share/arch_dotfiles/tmux_setup_state.json"

/-- `self.link_map`: name, source, target for the two managed links. -/
def link_map (t : TmuxSetup) : List (String × String × String) :=
  [("tmux.conf", t.repo_root ++ "/config/tmux/tmux.conf", t.config_dir ++ "/tmux.conf"),
   ("plugins", t.repo_root ++ "/config/tmux/plugins", t.tmux_dir ++ "/plugins")]

/-- `ensure_directories`: mkdir of the four directories, guarded by
dry-run. -/
def ensure_directories (t : TmuxSetup) : FsM Unit :=
  forEachM (fun d => if t.dry_run then pure () else mkdirp d)
    [t.config_dir, t.tmux_dir, t.backup_dir, parentOf t.state_file]

/-- One iteration of the `backup_existing_config` loop. -/
def backupOne (t : TmuxSetup) (acc : List (String × String))
    (item : String × String × String) : FsM (List (String × String)) := do
  let (name, _src, target) := item
  let fs ← getFs
  if fs.existsP target then
    let backup_path := t.backup_dir ++ "/" ++ name ++ ".backup." ++ t.timestamp
    let acc := acc ++ [(name, backup_path)]
    if t.dry_run then pure acc
    else if fs.is_dirP target then do
      copytree target backup_path
      pure acc
    else do
      copy2 target backup_path
      pure acc
  else pure acc

/-- `backup_existing_config`: unconditionally copies every existing
target (a symlinked target is copied through the link by
`shutil.copy2`/`copytree`; there is no `is_symlink` branch). -/
def backup_existing_config (t : TmuxSetup) : FsM (List (String × String)) :=
  t.link_map.foldlM t.backupOne []

/-- One iteration of `remove_existing_config` (its inner `try` swallows
removal errors and continues). -/
def removeOne (t : TmuxSetup) (item : String × String × String) : FsM Unit := do
  let (_name, _src, target) := item
  let fs ← getFs
  if fs.existsP target then
    FsM.attempt
      (if t.dry_run then pure ()
       else if fs.is_symlinkP target then unlink target
       else if fs.is_dirP target then rmtree target
       else unlink target)
      (pure ())
  else pure ()

def remove_existing_config (t : TmuxSetup) : FsM Unit :=
  forEachM t.removeOne t.link_map

/-- One iteration of `create_symlinks`: a missing source only prints a
warning and continues; a creation failure re-raises. -/
def createOne (t : TmuxSetup) (item : String × String × String) : FsM Unit := do
  let (_name, source, target) := item
  let fs ← getFs
  if ¬ fs.existsP source then pure ()
  else if t.dry_run then pure ()
  else do
    mkdirp (parentOf target)
    symlinkTo target source

def create_symlinks (t : TmuxSetup) : FsM Unit :=
  forEachM t.createOne t.link_map

/-- `save_state`: writes the JSON state record, guarded by dry-run. -/
def save_state (t : TmuxSetup) (backup_info : List (String × String)) : FsM Unit :=
  let st : TmuxState :=
    { timestamp := t.timestamp
      backup_info := backup_info
      links_created := t.link_map.map (fun i => (i.1, i.2.2))
      repo_root := t.repo_root }
  if t.dry_run then pure () else writeFile t.state_file (FileData.tmuxState st)

/-- One link check of `validate_setup`; resolution mismatches fail, a
missing source or an unresolvable path only warns. -/
def validateOne (fs : Fs) (item : String × String × String) : Bool :=
  let (_name, source, target) := item
  if ¬ fs.existsP source then true
  else if ¬ fs.existsP target then false
  else if ¬ fs.is_symlinkP target then false
  else
    match fs.resolve target, fs.resolve source with
    | some a, some b => a == b
    | _, _ => true

def validate_setup (t : TmuxSetup) : FsM Bool := do
  let fs ← getFs
  pure (t.link_map.all (validateOne fs))

/-- `TmuxSetup.setup`: the whole pipeline under one `try`, returning
`False` on any exception; validation runs only outside dry-run. -/
def setup (t : TmuxSetup) : FsM Bool :=
  FsM.attempt
    (do
      t.ensure_directories
      let backup_info ← t.backup_existing_config
      t.remove_existing_config
      t.create_symlinks
      t.save_state backup_info
      if ¬ t.dry_run then t.validate_setup
      else pure true)
    (pure false)

/-- Symlink-removal phase of `rollback`: a recorded target is unlinked
only when it currently exists and is a symlink. -/
def rollbackRemoveLink (link : String × String) : FsM Unit := do
  let (_name, targetStr) := link
  let fs ← getFs
  if fs.existsP targetStr && fs.is_symlinkP targetStr then unlink targetStr
  else pure ()

/-- Restore phase of `rollback`: copies each existing backup back over
the target from `self.link_map` (a missing name raises `KeyError`). -/
def rollbackRestoreOne (t : TmuxSetup) (b : String × String) : FsM Unit := do
  let (name, backupStr) := b
  let fs ← getFs
  if fs.existsP backupStr then
    match t.link_map.find? (fun i => i.1 == name) with
    | none => fail
    | some (_n, _s, target) =>
      if fs.is_dirP backupStr then copytree backupStr target
      else copy2 backupStr target
  else pure ()

/-- `TmuxSetup.rollback`: note that none of its mutations are guarded by
the dry-run flag, and an absent state file returns `False`. -/
def rollback (t : TmuxSetup) : FsM Bool := do
  let fs ← getFs
  if ¬ fs.existsP t.state_file then pure false
  else
    FsM.attempt
      (do
        let d ← readData t.state_file
        let st ← (match d with
          | FileData.tmuxState st => pure st
          | _ => fail)
        forEachM rollbackRemoveLink st.links_created
        forEachM t.rollbackRestoreOne st.backup_info
        unlink t.state_file
        pure true)
      (pure false)

end TmuxSetup

/-! Character-list implementations of the Python string operations used by
the scripts (structural recursion, so that proofs can evaluate them). -/

/-- `str.startswith(pat)` on character lists. -/
def hasPrefixL : List Char → List Char → Bool
  | [], _ => true
  | _ :: _, [] => false
  | c :: cs, d :: ds => c == d && hasPrefixL cs ds

/-- `pat in s` (substring containment) on character lists. -/
def hasSubL (pat : List Char) : List Char → Bool
  | [] => hasPrefixL pat []
  | c :: rest => hasPrefixL pat (c :: rest) || hasSubL pat rest

/-- `str.endswith(pat)`. -/
def endsWithS (s pat : String) : Bool :=
  hasPrefixL pat.data.reverse s.data.reverse

/-- `str.strip()` (whitespace from both ends). -/
def trimL (l : List Char) : List Char :=
  ((l.dropWhile Char.isWhitespace).reverse.dropWhile Char.isWhitespace).reverse

/-- One character of `str.lower()` (ASCII, all these scripts compare
ASCII flag values). -/
def charLower (c : Char) : Char :=
  if 'A' ≤ c && c ≤ 'Z' then Char.ofNat (c.toNat + 32) else c

/-- `str.lower()`. -/
def lowerL (l : List Char) : List Char := l.map charLower

/-- `str.strip('"\'')`. -/
def isQuoteChar (c : Char) : Bool := c == '"' || c == '\''

def stripQuotesL (l : List Char) : List Char :=
  ((l.dropWhile isQuoteChar).reverse.dropWhile isQuoteChar).reverse

/-- `line.split(c, 1)[1]`: everything after the first occurrence of `c`,
or `none` when `c` does not occur. -/
def afterChar (c : Char) : List Char → Option (List Char)
  | [] => none
  | a :: rest => if a == c then some rest else afterChar c rest

/-- `str(b).lower()` for a Python bool. -/
def boolLower (b : Bool) : String := if b then "true" else "false"

/-! Embedding of `scripts/setup-shell.py` (class `ShellSetup`). -/

/-- Outcomes of the opaque subprocess/environment collaborators used by
`setup-shell.py` (`paru`, `starship`, `os.environ`). -/
structure ShellEnv where
  paru_found : Bool
  starship_git_installed : Bool
  install_succeeds : Bool
  starship_on_path : Bool
  env_vim_mode : Option String

/-- Constructor data of `ShellSetup.__init__`. -/
structure ShellSetup where
  home : String
  repo_root : String
  dry_run : Bool
  vim_mode : Bool
  timestamp : String
  env : ShellEnv

namespace ShellSetup

def backup_dir (s : ShellSetup) : String := s.home ++ "/.local/share/arch_dotfiles/backups"

def state_file (s : ShellSetup) : String :=
  s.home ++ "/.local/share/arch_dotfiles/shell_setup_state.json"

def zshenv_path (s : ShellSetup) : String := s.home ++ "/.zshenv"

def zdotdir (s : ShellSetup) : String := s.home ++ "/.config/shell/zsh"

/-- `self.link_map`: source → target. -/
def link_map (s : ShellSetup) : List (String × String) :=
  [(s.repo_root ++ "/config/shell/zsh/zshenv", s.home ++ "/.zshenv"),
   (s.repo_root ++ "/config/shell/zsh/starship.toml", s.home ++ "/.config/starship.toml"),
   (s.repo_root ++ "/config/shell/zsh/zshrc", s.zdotdir ++ "/.zshrc")]

/-- The two `mkdir(parents=True, exist_ok=True)` calls at the end of
`__init__` — note they are not guarded by the dry-run flag. -/
def init (s : ShellSetup) : FsM Unit := do
  mkdirp s.backup_dir
  mkdirp (parentOf s.state_file)

def required_files (s : ShellSetup) : List String :=
  [s.repo_root ++ "/config/shell/zsh/zshrc",
   s.repo_root ++ "/config/shell/zsh/zshenv",
   s.repo_root ++ "/config/shell/zsh/starship.toml"] ++
  (if s.vim_mode then [s.repo_root ++ "/config/shell/zsh/vim-mode.zsh"] else [])

def validate_repository (s : ShellSetup) : FsM Bool := do
  let fs ← getFs
  pure (s.required_files.all (fun p => fs.existsP p))

/-- One iteration of the `backup_existing_config` loop: a symlinked
target gets an `.info` file recording only the link destination; a real
file is copied. -/
def backupOne (s : ShellSetup) (acc : List (String × String))
    (pair : String × String) : FsM (List (String × String)) := do
  let (_source, target) := pair
  let fs ← getFs
  if fs.existsP target || fs.is_symlinkP target then
    let backup_path := s.backup_dir ++ "/" ++ pathBase target ++ ".backup." ++ s.timestamp
    if ¬ s.dry_run then
      if fs.is_symlinkP target then do
        let info_path := s.backup_dir ++ "/" ++ pathBase target ++ ".backup." ++ s.timestamp ++ ".info"
        let d ← readlink target
        writeFile info_path (FileData.text ("symlink_target: " ++ d))
        pure (acc ++ [(target, info_path)])
      else do
        copy2 target backup_path
        pure (acc ++ [(target, backup_path)])
    else pure (acc ++ [(target, backup_path)])
  else pure acc

def backup_existing_config (s : ShellSetup) : FsM (List (String × String)) :=
  s.link_map.foldlM s.backupOne []

/-- `create_symlinks`: each iteration under its own `try`, returning
`False` (and stopping) on the first failure. -/
def createLinks (s : ShellSetup) : List (String × String) → FsM Bool
  | [] => pure true
  | (source, target) :: rest => do
    let ok ← FsM.attempt
      (do
        if ¬ s.dry_run then
          let fs ← getFs
          if fs.existsP target || fs.is_symlinkP target then unlink target
          symlinkTo target source
        pure true)
      (pure false)
    if ok then s.createLinks rest else pure false

def create_symlinks (s : ShellSetup) : FsM Bool :=
  s.createLinks s.link_map

/-- `install_packages` for `['starship-git']`: `paru -Q` / `paru -S` are
opaque subprocesses, their outcomes given by the environment. -/
def install_packages (s : ShellSetup) : FsM Bool :=
  if ¬ s.env.paru_found then pure false
  else if s.env.starship_git_installed then pure true
  else if ¬ s.dry_run then
    if s.env.install_succeeds then pure true else pure false
  else pure true

def verify_installations (s : ShellSetup) : FsM Bool :=
  if ¬ s.dry_run then pure s.env.starship_on_path else pure true

def ensureDirOne (d : String) : FsM Bool :=
  FsM.attempt (do mkdirp d; pure true) (pure false)

def ensure_config_directory (s : ShellSetup) : FsM Bool := do
  if s.dry_run then pure true
  else do
    let a ← ensureDirOne (s.home ++ "/.config")
    if ¬ a then pure false else ensureDirOne s.zdotdir

/-- Parse one `.zshenv` line the way `check_vim_mode_status` does. -/
def parseVimLine (l : List Char) : Option Bool :=
  if hasPrefixL "export ZSH_VIM_MODE=".data (trimL l) then
    match afterChar '=' l with
    | some rest => some (lowerL (stripQuotesL (trimL rest)) == "true".data)
    | none => none
  else none

def firstVimLine : List (List Char) → Option Bool
  | [] => none
  | l :: rest =>
    match parseVimLine l with
    | some b => some b
    | none => firstVimLine rest

def check_vim_mode_status (s : ShellSetup) : FsM Bool := do
  match s.env.env_vim_mode with
  | some v => pure (lowerL v.data == "true".data)
  | none => do
    let fs ← getFs
    if fs.existsP s.zshenv_path then
      FsM.attempt
        (do
          let d ← readData s.zshenv_path
          match d with
          | FileData.text c =>
            match firstVimLine (splitChar '\n' c.data) with
            | some b => pure b
            | none => pure false
          | _ => fail)
        (pure false)
    else pure false

/-- The `configure_vim_mode` line-rewriting loop: replaces every
`export ZSH_VIM_MODE=` line and reports whether any line matched. -/
def replaceVimLines (vm : Bool) : List (List Char) → List (List Char) × Bool
  | [] => ([], false)
  | l :: rest =>
    let hit := hasPrefixL "export ZSH_VIM_MODE=".data (trimL l)
    let l' := if hit then ("export ZSH_VIM_MODE=\"" ++ boolLower vm ++ "\"").data else l
    let (rest', f) := replaceVimLines vm rest
    (l' :: rest', hit || f)

def configure_vim_mode (s : ShellSetup) : FsM Bool :=
  FsM.attempt
    (do
      let fs ← getFs
      if fs.existsP s.zshenv_path then
        if ¬ s.dry_run then
          copy2 s.zshenv_path (s.backup_dir ++ "/.zshenv.backup." ++ s.timestamp)
      let fs2 ← getFs
      let existing ←
        (if fs2.existsP s.zshenv_path then do
          let d ← readData s.zshenv_path
          (match d with
           | FileData.text c => pure c
           | _ => fail)
        else pure "")
      let lines := if existing.data.isEmpty then [] else splitChar '\n' existing.data
      let (updated, found) := replaceVimLines s.vim_mode lines
      let updated :=
        if ¬ found then
          (if updated ≠ [] ∧ ¬ (trimL (updated.getLastD [])).isEmpty then updated ++ [[]]
           else updated) ++
          ["# Vim mode for zsh (managed by setup-shell.py)".data,
           ("export ZSH_VIM_MODE=\"" ++ boolLower s.vim_mode ++ "\"").data]
        else updated
      let new_content := joinChar '\n' updated
      if ¬ s.dry_run then writeFile s.zshenv_path (FileData.text (String.mk new_content))
      pure true)
    (pure false)

def save_state (s : ShellSetup) (backups : List (String × String)) : FsM Bool := do
  let vms ← s.check_vim_mode_status
  let st : ShellState :=
    { timestamp := s.timestamp
      backups := backups
      links := s.link_map.map (fun p => (p.2, p.1))
      vim_mode := s.vim_mode
      vim_mode_status := vms }
  if ¬ s.dry_run then
    FsM.attempt (do writeFile s.state_file (FileData.shellState st); pure true) (pure false)
  else pure true

/-- `ShellSetup.setup` (the constructor's `mkdir` calls are in `init`,
run by `main` before this). -/
def setup (s : ShellSetup) : FsM Bool := do
  let vr ← s.validate_repository
  if ¬ vr then pure false else do
  let ip ← s.install_packages
  if ¬ ip then pure false else do
  let vi ← s.verify_installations
  if ¬ vi then pure false else do
  let ec ← s.ensure_config_directory
  if ¬ ec then pure false else do
  let cv ← s.check_vim_mode_status
  let cfg ← if s.vim_mode || cv then s.configure_vim_mode else pure true
  if ¬ cfg then pure false else do
  let backups ← s.backup_existing_config
  let cs ← s.create_symlinks
  if ¬ cs then pure false else do
  s.save_state backups

/-- Restore one `(target, backup)` pair of `ShellSetup.rollback`: an
`.info` backup recreates the symlink from the recorded destination, any
other backup is copied back. -/
def restoreOne (_s : ShellSetup) (pair : String × String) : FsM Bool :=
  FsM.attempt
    (do
      let (targetStr, backupStr) := pair
      let fs ← getFs
      if fs.existsP targetStr || fs.is_symlinkP targetStr then unlink targetStr
      if endsWithS (pathBase backupStr) ".info" then do
        let d ← readData backupStr
        (match d with
         | FileData.text info =>
           let info := trimL info.data
           if hasPrefixL "symlink_target: ".data info then do
             symlinkTo targetStr (String.mk (info.drop 16))
             pure true
           else pure true
         | _ => fail)
      else do
        copy2 backupStr targetStr
        pure true)
    (pure false)

def restoreAll (s : ShellSetup) : List (String × String) → FsM Bool
  | [] => pure true
  | p :: rest => do
    let ok ← s.restoreOne p
    if ok then s.restoreAll rest else pure false

/-- `ShellSetup.rollback`: an absent state file or a JSON parse failure
returns `False`; a JSON file of the wrong shape raises `KeyError` at
`state['backups']` (uncaught). -/
def rollback (s : ShellSetup) : FsM Bool := do
  let fs ← getFs
  if ¬ fs.existsP s.state_file then pure false
  else do
    let j ← FsM.attempt
      (do
        let d ← readData s.state_file
        (match d with
         | FileData.text _ => pure none
         | FileData.malformed => pure none
         | d => pure (some d)))
      (pure none)
    match j with
    | none => pure false
    | some (FileData.shellState st) => do
      let ok ← s.restoreAll st.backups
      if ¬ ok then pure false
      else do
        unlink s.state_file
        pure true
    | some _ => fail

end ShellSetup

/-! Embedding of `scripts/setup-mako.py` (class `MakoSetup`). -/

/-- Constructor data of `MakoSetup.__init__` plus the opaque `paru`
collaborator outcomes. -/
structure MakoSetup where
  home : String
  repo_root : String
  dry_run : Bool
  timestamp : String
  paru_found : Bool
  mako_installed : Bool
  install_succeeds : Bool

namespace MakoSetup

def config_source (m : MakoSetup) : String := m.repo_root ++ "/config/hypr/mako"

def config_target (m : MakoSetup) : String := m.home ++ "/.config/mako"

def hyprland_config (m : MakoSetup) : String := m.home ++ "/.config/hypr/hyprland.conf"

def backup_dir (m : MakoSetup) : String :=
  m.home ++ "/.local/share/arch_dotfiles/backups/mako"

def state_file (m : MakoSetup) : String :=
  m.home ++ "/.local/share/arch_dotfiles/mako_state.json"

def ensure_directories (m : MakoSetup) : FsM Unit := do
  if ¬ m.dry_run then
    mkdirp m.backup_dir
    mkdirp (parentOf m.state_file)
    mkdirp m.config_target

def check_package_installed (m : MakoSetup) : Bool :=
  m.paru_found && m.mako_installed

def install_package (m : MakoSetup) : FsM Bool :=
  if m.check_package_installed then pure true
  else if m.dry_run then pure true
  else if ¬ m.paru_found then pure false
  else if m.install_succeeds then pure true
  else pure false

def backup_existing_config (m : MakoSetup) : FsM (List (String × String)) := do
  let fs ← getFs
  let bi ←
    (if fs.existsP m.config_target then do
      let bp := m.backup_dir ++ "/config.backup." ++ m.timestamp
      (if ¬ m.dry_run then
        (if fs.is_dirP m.config_target then copytree m.config_target bp
         else do
           mkdirp (parentOf bp)
           copy2 m.config_target bp)
       else pure ())
      pure [("config", bp)]
    else pure ([] : List (String × String)))
  let fs2 ← getFs
  if fs2.existsP m.hyprland_config then do
    let bp := m.backup_dir ++ "/hyprland.conf.backup." ++ m.timestamp
    (if ¬ m.dry_run then do
      mkdirp (parentOf bp)
      copy2 m.hyprland_config bp
     else pure ())
    pure (bi ++ [("hyprland", bp)])
  else pure bi

def create_symlinks (m : MakoSetup) : FsM Unit := do
  let fs ← getFs
  (if fs.existsP m.config_target then
    (if ¬ m.dry_run then
      (if fs.is_dirP m.config_target then rmtree m.config_target
       else unlink m.config_target)
     else pure ())
   else pure ())
  if ¬ m.dry_run then do
    mkdirp (parentOf m.config_target)
    symlinkTo m.config_target m.config_source

def makoPattern : String := "exec-once = mako"

def makoAppendix : String := "\n# Notification daemon\nexec-once = mako\n"

/-- `update_hyprland_config`: appends the `exec-once = mako` block only
when the pattern is not already present in `hyprland.conf`. -/
def update_hyprland_config (m : MakoSetup) : FsM Unit := do
  let fs ← getFs
  if ¬ fs.existsP m.hyprland_config then pure ()
  else
    FsM.attempt
      (do
        let d ← readData m.hyprland_config
        match d with
        | FileData.text content =>
          if hasSubL makoPattern.data content.data then pure ()
          else if m.dry_run then pure ()
          else appendText m.hyprland_config makoAppendix
        | _ => fail)
      (pure ())

def save_state (m : MakoSetup) (bi : List (String × String)) : FsM Unit :=
  let st : MakoState :=
    { timestamp := m.timestamp
      repo_root := m.repo_root
      backup_info := bi
      config_source := m.config_source
      config_target := m.config_target }
  if ¬ m.dry_run then writeFile m.state_file (FileData.makoState st) else pure ()

def validate_setup (m : MakoSetup) : FsM Bool := do
  let fs ← getFs
  let link :=
    if ¬ fs.existsP m.config_target then false
    else if ¬ fs.is_symlinkP m.config_target then false
    else
      match fs.readlinkP m.config_target with
      | some d => d == m.config_source
      | none => false
  pure (m.check_package_installed && link)

/-- `MakoSetup.setup`: validates the source path before any mutation. -/
def setup (m : MakoSetup) : FsM Bool :=
  FsM.attempt
    (do
      let fs ← getFs
      if ¬ fs.existsP m.config_source then pure false
      else do
        m.ensure_directories
        let ok ← m.install_package
        if ¬ ok then pure false
        else do
          let bi ← m.backup_existing_config
          m.create_symlinks
          m.update_hyprland_config
          if ¬ m.dry_run then do
            m.save_state bi
            m.validate_setup
          else pure true)
    (pure false)

def restoreOne (m : MakoSetup) (st : MakoState) (b : String × String) : FsM Unit := do
  let (name, backupStr) := b
  let tgt? : Option String :=
    if name = "config" then some st.config_target
    else if name = "hyprland" then some m.hyprland_config
    else none
  match tgt? with
  | none => pure ()
  | some target => do
    let fs ← getFs
    if fs.existsP backupStr then
      if ¬ m.dry_run then
        (if fs.is_dirP backupStr then copytree backupStr target
         else copy2 backupStr target)

/-- `MakoSetup.rollback`: all of its mutations respect the dry-run flag
(unlike the tmux rollback); an absent state file returns `False`. -/
def rollback (m : MakoSetup) : FsM Bool := do
  let fs ← getFs
  if ¬ fs.existsP m.state_file then pure false
  else
    FsM.attempt
      (do
        let d ← readData m.state_file
        let st ← (match d with
          | FileData.makoState st => pure st
          | _ => fail)
        let fs1 ← getFs
        (if fs1.existsP st.config_target && fs1.is_symlinkP st.config_target then
          (if ¬ m.dry_run then unlink st.config_target else pure ())
         else pure ())
        forEachM (m.restoreOne st) st.backup_info
        (if ¬ m.dry_run then unlink m.state_file else pure ())
        pure true)
      (pure false)

end MakoSetup

/-! Embedding of the parts of `scripts/setup-claude.py` and
`scripts/install-cli-tools.py` settled by the claims. -/

/-- Default state of `ClaudeSetup._load_state`. -/
def ClaudeState.default : ClaudeState :=
  { setup_timestamp := none, backups := [], symlinks_created := [] }

structure ClaudeSetup where
  home : String
  dry_run : Bool

namespace ClaudeSetup

def state_file (c : ClaudeSetup) : String :=
  c.home ++ "/.local/share/arch_dotfiles/claude_state.json"

/-- `_load_state`: an absent or unparsable state file yields the default
state; a parse error only logs a warning.  (A parsable JSON file of a
different schema is a dict whose `.get` calls also behave like the
default on the fields the claims touch.) -/
def load_state (c : ClaudeSetup) : FsM ClaudeState := do
  let fs ← getFs
  if fs.existsP c.state_file then
    FsM.attempt
      (do
        let d ← readData c.state_file
        (match d with
         | FileData.claudeState st => pure st
         | FileData.text _ => fail
         | FileData.malformed => fail
         | _ => pure ClaudeState.default))
      (pure ClaudeState.default)
  else pure ClaudeState.default

/-- `_create_symlink`: an already-correct symlink is kept as is; anything
else occupying the target is removed and replaced. -/
def create_symlink (c : ClaudeSetup) (source target : String) : FsM Bool :=
  if c.dry_run then pure true
  else
    FsM.attempt
      (do
        mkdirp source
        let fs ← getFs
        if fs.existsP target || fs.is_symlinkP target then
          if fs.is_symlinkP target && (fs.readlinkP target == some source) then pure true
          else do
            (if fs.is_dirP target && ¬ fs.is_symlinkP target then rmtree target
             else unlink target)
            symlinkTo target source
            pure true
        else do
          symlinkTo target source
          pure true)
      (pure false)

/-- Head of `ClaudeSetup.rollback`: with no recorded `setup_timestamp` it
reports nothing-to-rollback and returns `True`.  The remainder of the
method (symlink removal and backup restoration) is abstracted as `rest`;
no settled claim depends on it. -/
def rollback (c : ClaudeSetup) (rest : ClaudeState → FsM Bool) : FsM Bool := do
  let st ← c.load_state
  if st.setup_timestamp.isNone then pure true
  else rest st

end ClaudeSetup

structure CliToolsInstaller where
  home : String
  dry_run : Bool
  force : Bool

namespace CliToolsInstaller

def state_file (c : CliToolsInstaller) : String :=
  c.home ++ "/.local/share/arch_dotfiles/cli_tools_state.json"

/-- `_load_state`: an absent or unparsable state file yields the default
`{'installed_packages': [], 'installation_history': []}`; a read or parse
error only logs a warning and falls through to the default. -/
def load_state (c : CliToolsInstaller) : FsM CliState := do
  let fs ← getFs
  if fs.existsP c.state_file then
    FsM.attempt
      (do
        let d ← readData c.state_file
        (match d with
         | FileData.cliState st => pure st
         | FileData.text _ => fail
         | FileData.malformed => fail
         | _ => pure CliState.default))
      (pure CliState.default)
  else pure CliState.default

/-- Head of `CliToolsInstaller.rollback`: with no installation history it
prints a notice and returns `True`.  The remainder (package removal via
`paru -R`) is abstracted as `rest`; no settled claim depends on it. -/
def rollback (c : CliToolsInstaller) (rest : CliState → FsM Bool) : FsM Bool := do
  let st ← c.load_state
  if st.installation_history.isEmpty then pure true
  else rest st

end CliToolsInstaller

/-! Exit-code dispatch of each tool's `main()`. -/

/-- How one invocation of a tool's selected operation ends: it returns
`True`, returns `False`, or a `KeyboardInterrupt` (SIGINT) is raised
while it runs. -/
inductive OpOutcome where
  | success
  | failure
  | interrupted
deriving DecidableEq, Repr

/-- `setup-tmux.py main`: `sys.exit(0 if success else 1)` with no
`except KeyboardInterrupt` handler — on SIGINT the script itself sets no
exit code (`none`); the interpreter's unhandled-exception behaviour
applies. -/
def tmuxMainExit : OpOutcome → Option Nat
  | OpOutcome.success => some 0
  | OpOutcome.failure => some 1
  | OpOutcome.interrupted => none

/-- `setup-shell.py main`: same handler-free dispatch as the tmux one. -/
def shellMainExit : OpOutcome → Option Nat
  | OpOutcome.success => some 0
  | OpOutcome.failure => some 1
  | OpOutcome.interrupted => none

/-- `setup-mako.py main`: same handler-free dispatch as the tmux one. -/
def makoMainExit : OpOutcome → Option Nat
  | OpOutcome.success => some 0
  | OpOutcome.failure => some 1
  | OpOutcome.interrupted => none

/-- `setup-btop.py main`: wraps the dispatch in
`except KeyboardInterrupt: sys.exit(130)`. -/
def btopMainExit : OpOutcome → Option Nat
  | OpOutcome.success => some 0
  | OpOutcome.failure => some 1
  | OpOutcome.interrupted => some 130

/-! Unfolding lemmas for the effect monad, used by the symbolic proofs. -/

namespace FsM

@[simp] theorem bind_apply {α β} (x : FsM α) (f : α → FsM β) (fs : Fs) :
    (x >>= f) fs =
      match x fs with
      | (some a, fs1) => f a fs1
      | (none, fs1) => (none, fs1) := rfl

@[simp] theorem pure_apply {α} (a : α) (fs : Fs) : (pure a : FsM α) fs = (some a, fs) := rfl

@[simp] theorem getFs_apply (fs : Fs) : getFs fs = (some fs, fs) := rfl

@[simp] theorem setFs_apply (fs0 fs : Fs) : setFs fs0 fs = (some (), fs0) := rfl

@[simp] theorem fail_apply {α} (fs : Fs) : (fail : FsM α) fs = (none, fs) := rfl

@[simp] theorem attempt_apply {α} (x h : FsM α) (fs : Fs) :
    FsM.attempt x h fs =
      match x fs with
      | (some a, fs1) => (some a, fs1)
      | (none, fs1) => h fs1 := rfl

end FsM

/-- Concatenating strings concatenates their character lists. -/
theorem string_data_append (s t : String) : (s ++ t).data = s.data ++ t.data := by
  cases s
  cases t
  rfl

/-- A substring of the right part is a substring of a concatenation. -/
theorem hasSubL_append_right (pat l1 l2 : List Char) (h : hasSubL pat l2 = true) :
    hasSubL pat (l1 ++ l2) = true := by
  induction l1 with
  | nil => simpa using h
  | cons c rest ih =>
    simp only [List.cons_append, hasSubL, Bool.or_eq_true]
    exact Or.inr ih

/-- Read the tmux state record stored at a path, if any. -/
def tmuxStateOf (fs : Fs) (p : String) : Option TmuxState :=
  match fs.lookup p with
  | some (Entry.file (FileData.tmuxState st)) => some st
  | _ => none

/-! Concrete scenario data for the claim theorems.  All paths are built
from home `/h` and repository root `/r`. -/

def tmuxCtx : TmuxSetup :=
  { home := "/h", repo_root := "/r", dry_run := false, timestamp := "t1" }

def tmuxCtx2 : TmuxSetup :=
  { home := "/h", repo_root := "/r", dry_run := false, timestamp := "t2" }

def tmuxCtxDry : TmuxSetup :=
  { home := "/h", repo_root := "/r", dry_run := true, timestamp := "t3" }

def tmuxSrcConf : String := "/r/config/tmux/tmux.conf"

def tmuxSrcPlugins : String := "/r/config/tmux/plugins"

def tmuxTgtConf : String := "/h/.config/tmux/tmux.conf"

def tmuxTgtPlugins : String := "/h/.tmux/plugins"

/-- Pre-setup filesystem: both sources present, a plain file `old` at the
tmux.conf target and a directory `plug0` at the plugins target. -/
def tmuxFsPre : Fs :=
  [(tmuxSrcConf, Entry.file (FileData.text "new")),
   (tmuxSrcPlugins, Entry.dir "plug"),
   (tmuxTgtConf, Entry.file (FileData.text "old")),
   (tmuxTgtPlugins, Entry.dir "plug0")]

/-- Pre-setup filesystem where the tmux.conf target is itself a symlink
to `/elsewhere` (whose file content is `x`). -/
def tmuxFsSymPre : Fs :=
  [(tmuxSrcConf, Entry.file (FileData.text "new")),
   (tmuxSrcPlugins, Entry.dir "plug"),
   (tmuxTgtConf, Entry.symlink "/elsewhere"),
   ("/elsewhere", Entry.file (FileData.text "x"))]

/-- Pre-setup filesystem where the `plugins` source is missing while a
directory still occupies the plugins target. -/
def tmuxFsNoPluginSrc : Fs :=
  [(tmuxSrcConf, Entry.file (FileData.text "new")),
   (tmuxTgtPlugins, Entry.dir "plug0")]

/-- `setup` then `rollback`, two separate invocations (fresh timestamp). -/
def tmuxRoundtrip : FsM Bool := do
  let a ← tmuxCtx.setup
  let b ← tmuxCtx2.rollback
  pure (a && b)

/-- `setup` twice, two separate invocations (fresh timestamp). -/
def tmuxTwoSetups : FsM Bool := do
  let a ← tmuxCtx.setup
  let b ← tmuxCtx2.setup
  pure (a && b)

/-- Filesystem right after a successful setup on `tmuxFsPre`. -/
def tmuxFsLinked : Fs := runFs tmuxCtx.setup tmuxFsPre

/-- The subprocess environment in which every collaborator succeeds. -/
def shellEnvOk : ShellEnv :=
  { paru_found := true, starship_git_installed := true, install_succeeds := true,
    starship_on_path := true, env_vim_mode := none }

def shellCtx : ShellSetup :=
  { home := "/h", repo_root := "/r", dry_run := false, vim_mode := false,
    timestamp := "t1", env := shellEnvOk }

/-- Pre-setup filesystem for the shell tool: all three sources present,
`~/.zshenv` a pre-existing symlink to `/old_zshenv`. -/
def shellFsPre : Fs :=
  [("/r/config/shell/zsh/zshenv", Entry.file (FileData.text "zsrc")),
   ("/r/config/shell/zsh/starship.toml", Entry.file (FileData.text "st")),
   ("/r/config/shell/zsh/zshrc", Entry.file (FileData.text "zrc")),
   ("/h/.zshenv", Entry.symlink "/old_zshenv"),
   ("/old_zshenv", Entry.file (FileData.text "x"))]

/-- Shell setup then rollback; each invocation runs the constructor's
directory creation first, as `main` does. -/
def shellRoundtrip : FsM Bool := do
  ShellSetup.init shellCtx
  let a ← shellCtx.setup
  ShellSetup.init shellCtx
  let b ← shellCtx.rollback
  pure (a && b)

/-- The `__init__` directory creation followed by the backup step alone. -/
def shellBackupRun : FsM (List (String × String)) := do
  ShellSetup.init shellCtx
  shellCtx.backup_existing_config

def shellInfoBackupPath : String :=
  "/h/.local/share/arch_dotfiles/backups/.zshenv.backup.t1.info"

def shellPlainBackupPath : String :=
  "/h/.local/share/arch_dotfiles/backups/.zshenv.backup.t1"

def makoCtx : MakoSetup :=
  { home := "/h", repo_root := "/r", dry_run := false, timestamp := "t1",
    paru_found := true, mako_installed := true, install_succeeds := true }

def claudeCtx : ClaudeSetup := { home := "/h", dry_run := false }

def cliCtx : CliToolsInstaller := { home := "/h", dry_run := false, force := false }

/-- Directory creation then the tmux backup step alone. -/
def tmuxBackupRun : FsM (List (String × String)) := do
  tmuxCtx.ensure_directories
  tmuxCtx.backup_existing_config

def tmuxConfBackupT1 : String := "/h/.local/share/arch_dotfiles/backups/tmux.conf.backup.t1"

def tmuxConfBackupT2 : String := "/h/.local/share/arch_dotfiles/backups/tmux.conf.backup.t2"

/-- A state file as left by a completed setup run that backed up a
pre-existing tmux.conf. -/
def c10State : TmuxState :=
  { timestamp := "t1"
    backup_info := [("tmux.conf", tmuxConfBackupT1)]
    links_created := [("tmux.conf", tmuxTgtConf), ("plugins", tmuxTgtPlugins)]
    repo_root := "/r" }

/-- Filesystem at rollback time where entry `e` has replaced the
tmux.conf target after setup, with a recorded file backup present. -/
def c10Fs (e : Entry) : Fs :=
  [(tmuxCtx.state_file, Entry.file (FileData.tmuxState c10State)),
   (tmuxTgtConf, e),
   (tmuxConfBackupT1, Entry.file (FileData.text "b"))]

/-- Same scenario with no backup recorded (target did not pre-exist). -/
def c10StateNB : TmuxState :=
  { timestamp := "t1"
    backup_info := []
    links_created := [("tmux.conf", tmuxTgtConf), ("plugins", tmuxTgtPlugins)]
    repo_root := "/r" }

def c10FsNB (e : Entry) : Fs :=
  [(tmuxCtx.state_file, Entry.file (FileData.tmuxState c10StateNB)),
   (tmuxTgtConf, e)]

/-- Rollback-time filesystem where a (non-dangling) symlink occupies the
recorded target. -/
def c10FsSym : Fs :=
  [(tmuxCtx.state_file, Entry.file (FileData.tmuxState c10State)),
   (tmuxTgtConf, Entry.symlink "/z"),
   ("/z", Entry.file (FileData.text "zz")),
   (tmuxConfBackupT1, Entry.file (FileData.text "b"))]

/-! Claim theorems. -/

/-- C1 (counterexample): for the tmux tool, a target that pre-existed as
a symlink (to `/elsewhere`, content `x`) is not restored with the same
link destination by `rollback(setup(S))`: it comes back as a plain file
holding the referent's content, because `backup_existing_config` copies
through the link and `rollback` restores with `shutil.copy2`. -/
theorem c1_prior_symlink_restored_as_plain_file :
    tmuxFsSymPre.lookup tmuxTgtConf = some (Entry.symlink "/elsewhere")
    ∧ runOk tmuxRoundtrip tmuxFsSymPre = true
    ∧ (runFs tmuxRoundtrip tmuxFsSymPre).lookup tmuxTgtConf
        = some (Entry.file (FileData.text "x"))
    ∧ (runFs tmuxRoundtrip tmuxFsSymPre).lookup tmuxTgtConf
        ≠ some (Entry.symlink "/elsewhere") := by decide

/-- C1 (amended): after a successful setup on a pre-existing plain file
and directory, the tmux rollback restores both content-equal and deletes
the state file; the shell tool restores a pre-existing symlink with the
same link destination and deletes its state file.  (A pre-existing
symlink under the tmux tool instead comes back as a plain copy of its
referent, per the counterexample.) -/
theorem c1_rollback_restores_presetup_state :
    runOk tmuxRoundtrip tmuxFsPre = true
    ∧ (runFs tmuxRoundtrip tmuxFsPre).lookup tmuxTgtConf
        = some (Entry.file (FileData.text "old"))
    ∧ (runFs tmuxRoundtrip tmuxFsPre).lookup tmuxTgtPlugins
        = some (Entry.dir "plug0")
    ∧ (runFs tmuxRoundtrip tmuxFsPre).lookup tmuxCtx.state_file = none
    ∧ runOk shellRoundtrip shellFsPre = true
    ∧ (runFs shellRoundtrip shellFsPre).lookup "/h/.zshenv"
        = some (Entry.symlink "/old_zshenv")
    ∧ (runFs shellRoundtrip shellFsPre).lookup shellCtx.state_file = none := by decide

/-- C2: `TmuxSetup.rollback` performs none of its mutations under the
dry-run guard — invoked with `--dry-run --rollback` on a filesystem
holding a state file from a completed setup, it still removes the created
symlink, copies the backup over the target, and deletes the state file,
contradicting the `--dry-run` contract (`Show what would be done without
making changes`). -/
theorem c2_tmux_dryrun_rollback_mutates :
    tmuxFsLinked.lookup tmuxCtx.state_file ≠ none
    ∧ tmuxFsLinked.lookup tmuxTgtConf = some (Entry.symlink tmuxSrcConf)
    ∧ runOk tmuxCtxDry.rollback tmuxFsLinked = true
    ∧ (runFs tmuxCtxDry.rollback tmuxFsLinked).lookup tmuxCtx.state_file = none
    ∧ (runFs tmuxCtxDry.rollback tmuxFsLinked).lookup tmuxTgtConf
        = some (Entry.file (FileData.text "old")) := by decide

/-- C3 (counterexample): with no state file, the tmux rollback prints an
error and returns `False`, so `main` exits with code 1 — not the
nothing-to-rollback success the claim states. -/
theorem c3_tmux_rollback_no_state_fails :
    runOk tmuxCtx.rollback [] = false
    ∧ tmuxMainExit OpOutcome.failure = some 1 := by decide

/-- C3 (amended): with no state file, the tmux, mako, and shell rollbacks
report an error and fail (exit code 1), leaving the filesystem untouched;
the claude and install-cli-tools rollbacks report nothing-to-rollback and
succeed trivially, whatever the rest of their rollback would do. -/
theorem c3_rollback_no_state_behaviour (fs : Fs)
    (h1 : fs.existsP tmuxCtx.state_file = false)
    (h2 : fs.existsP (MakoSetup.state_file makoCtx) = false)
    (h3 : fs.existsP (ShellSetup.state_file shellCtx) = false)
    (h4 : fs.existsP (ClaudeSetup.state_file claudeCtx) = false)
    (h5 : fs.existsP (CliToolsInstaller.state_file cliCtx) = false) :
    tmuxCtx.rollback fs = (some false, fs)
    ∧ makoCtx.rollback fs = (some false, fs)
    ∧ shellCtx.rollback fs = (some false, fs)
    ∧ (∀ rest, ClaudeSetup.rollback claudeCtx rest fs = (some true, fs))
    ∧ (∀ rest, CliToolsInstaller.rollback cliCtx rest fs = (some true, fs))
    ∧ tmuxMainExit OpOutcome.failure = some 1 := by
  refine ⟨?_, ?_, ?_, ?_, ?_, rfl⟩
  · simp [TmuxSetup.rollback, h1]
  · simp [MakoSetup.rollback, h2]
  · simp [ShellSetup.rollback, h3]
  · intro rest
    simp [ClaudeSetup.rollback, ClaudeSetup.load_state, h4, ClaudeState.default]
  · intro rest
    simp [CliToolsInstaller.rollback, CliToolsInstaller.load_state, h5, CliState.default]

/-- C3 (witness): the general statement applied to the empty filesystem. -/
theorem c3_rollback_no_state_behaviour_witness :
    (Fs.existsP [] (TmuxSetup.state_file tmuxCtx) = false
      ∧ Fs.existsP [] (MakoSetup.state_file makoCtx) = false
      ∧ Fs.existsP [] (ShellSetup.state_file shellCtx) = false
      ∧ Fs.existsP [] (ClaudeSetup.state_file claudeCtx) = false
      ∧ Fs.existsP [] (CliToolsInstaller.state_file cliCtx) = false)
    ∧ (tmuxCtx.rollback [] = (some false, [])
        ∧ makoCtx.rollback [] = (some false, [])
        ∧ shellCtx.rollback [] = (some false, [])
        ∧ (∀ rest, ClaudeSetup.rollback claudeCtx rest [] = (some true, []))
        ∧ (∀ rest, CliToolsInstaller.rollback cliCtx rest [] = (some true, []))
        ∧ tmuxMainExit OpOutcome.failure = some 1) :=
  ⟨⟨by decide, by decide, by decide, by decide, by decide⟩,
   c3_rollback_no_state_behaviour [] (by decide) (by decide) (by decide) (by decide) (by decide)⟩

/-- C4 (counterexample): with the `plugins` source missing, the tmux
setup does not abort: it returns success, removes the pre-existing
plugins directory (after backing it up), and writes the state file — it
merely warns and skips creating that one symlink. -/
theorem c4_tmux_missing_source_still_mutates :
    tmuxFsNoPluginSrc.lookup tmuxSrcPlugins = none
    ∧ tmuxFsNoPluginSrc.lookup tmuxTgtPlugins = some (Entry.dir "plug0")
    ∧ runOk tmuxCtx.setup tmuxFsNoPluginSrc = true
    ∧ (runFs tmuxCtx.setup tmuxFsNoPluginSrc).lookup tmuxTgtPlugins = none
    ∧ (runFs tmuxCtx.setup tmuxFsNoPluginSrc).lookup tmuxCtx.state_file ≠ none := by decide

/-- C4 (amended): the mako setup checks its source first and aborts
before any filesystem mutation and before any state write when the
source is missing; the tmux setup does not (see the counterexample). -/
theorem c4_mako_missing_source_aborts (m : MakoSetup) (fs : Fs)
    (h : fs.existsP m.config_source = false) :
    m.setup fs = (some false, fs) := by
  simp [MakoSetup.setup, h]

/-- C4 (witness): the mako abort applied to the empty filesystem. -/
theorem c4_mako_missing_source_aborts_witness :
    Fs.existsP [] (MakoSetup.config_source makoCtx) = false
    ∧ makoCtx.setup [] = (some false, []) :=
  ⟨by decide, c4_mako_missing_source_aborts makoCtx [] (by decide)⟩

/-- C5 (counterexample): on the second consecutive setup the tmux backup
step is not a no-op — the now-correct symlink is copied again (through
the link, so the new backup holds the repository content `new`), and the
overwritten state file records only this second backup, no longer
referencing the original pre-existing content `old`. -/
theorem c5_second_backup_not_noop_and_record_lost :
    tmuxFsPre.lookup tmuxTgtConf = some (Entry.file (FileData.text "old"))
    ∧ (tmuxStateOf (runFs tmuxTwoSetups tmuxFsPre) tmuxCtx.state_file).map
        (fun st => st.backup_info)
      = some [("tmux.conf", tmuxConfBackupT2),
              ("plugins", "/h/.local/share/arch_dotfiles/backups/plugins.backup.t2")]
    ∧ (runFs tmuxTwoSetups tmuxFsPre).lookup tmuxConfBackupT2
        = some (Entry.file (FileData.text "new"))
    ∧ (runFs tmuxTwoSetups tmuxFsPre).lookup tmuxConfBackupT1
        = some (Entry.file (FileData.text "old")) := by decide

/-- C5 (amended): two consecutive setups with no external change yield
the same final `target -> source` symlink (tmux), and the claude
`_create_symlink` treats an already-correct link as satisfied without
touching the filesystem; but the tmux backup step runs again and the
state record keeps only the new backup (see the counterexample). -/
theorem c5_second_setup_same_link_claude_skips :
    runOk tmuxTwoSetups tmuxFsPre = true
    ∧ (runFs tmuxTwoSetups tmuxFsPre).lookup tmuxTgtConf = some (Entry.symlink tmuxSrcConf)
    ∧ (runFs tmuxCtx.setup tmuxFsPre).lookup tmuxTgtConf = some (Entry.symlink tmuxSrcConf)
    ∧ (runFs tmuxTwoSetups tmuxFsPre).lookup tmuxTgtPlugins = some (Entry.symlink tmuxSrcPlugins)
    ∧ claudeCtx.create_symlink "/src" "/tgt" [("/src", Entry.dir "s"), ("/tgt", Entry.symlink "/src")]
        = (some true, [("/src", Entry.dir "s"), ("/tgt", Entry.symlink "/src")]) := by decide

/-- C6 (counterexample): an unparsable state file is not treated as "no
state" by the shell and tmux rollbacks — they report a failure and return
`False` (exit code 1) instead of succeeding trivially. -/
theorem c6_rollback_fails_on_malformed_state :
    runOk shellCtx.rollback [(ShellSetup.state_file shellCtx, Entry.file FileData.malformed)] = false
    ∧ runOk tmuxCtx.rollback [(TmuxSetup.state_file tmuxCtx, Entry.file FileData.malformed)] = false := by decide

/-- C6 (amended): the dedicated `_load_state` helpers of
install-cli-tools and setup-claude return the default state, without
failing the caller, both when the state file is absent and when it is
unparsable; the shell/tmux rollbacks have no such loader and treat
unparsable state as a failure (see the counterexample). -/
theorem c6_load_state_tolerates_missing_and_malformed (fs : Fs)
    (h1 : fs.existsP (CliToolsInstaller.state_file cliCtx) = false)
    (h2 : fs.existsP (ClaudeSetup.state_file claudeCtx) = false) :
    cliCtx.load_state fs = (some CliState.default, fs)
    ∧ claudeCtx.load_state fs = (some ClaudeState.default, fs)
    ∧ cliCtx.load_state [(CliToolsInstaller.state_file cliCtx, Entry.file FileData.malformed)]
        = (some CliState.default,
           [(CliToolsInstaller.state_file cliCtx, Entry.file FileData.malformed)])
    ∧ claudeCtx.load_state [(ClaudeSetup.state_file claudeCtx, Entry.file FileData.malformed)]
        = (some ClaudeState.default,
           [(ClaudeSetup.state_file claudeCtx, Entry.file FileData.malformed)]) := by
  refine ⟨?_, ?_, by decide, by decide⟩
  · simp [CliToolsInstaller.load_state, h1]
  · simp [ClaudeSetup.load_state, h2]

/-- C6 (witness): the loaders applied to the empty filesystem. -/
theorem c6_load_state_tolerates_missing_and_malformed_witness :
    (Fs.existsP [] (CliToolsInstaller.state_file cliCtx) = false
      ∧ Fs.existsP [] (ClaudeSetup.state_file claudeCtx) = false)
    ∧ cliCtx.load_state [] = (some CliState.default, [])
    ∧ claudeCtx.load_state [] = (some ClaudeState.default, []) :=
  ⟨⟨by decide, by decide⟩,
   (c6_load_state_tolerates_missing_and_malformed [] (by decide) (by decide)).1,
   (c6_load_state_tolerates_missing_and_malformed [] (by decide) (by decide)).2.1⟩

/-- C7 (counterexample): the tmux backup of a symlinked target does not
record the link's destination string — `shutil.copy2` copies straight
through the link, so the backup is a full copy of the referent's content
`x` (the destination `/elsewhere` is recorded nowhere). -/
theorem c7_tmux_backup_copies_referent_content :
    tmuxFsSymPre.lookup tmuxTgtConf = some (Entry.symlink "/elsewhere")
    ∧ (tmuxBackupRun tmuxFsSymPre).1 = some [("tmux.conf", tmuxConfBackupT1)]
    ∧ (runFs tmuxBackupRun tmuxFsSymPre).lookup tmuxConfBackupT1
        = some (Entry.file (FileData.text "x")) := by decide

/-- C7 (amended): the shell backup of a symlinked target records only the
link's destination string in an `.info` file and copies no content; the
tmux backup instead copies the referent's content (see the
counterexample). -/
theorem c7_shell_backup_records_destination_string :
    shellFsPre.lookup "/h/.zshenv" = some (Entry.symlink "/old_zshenv")
    ∧ (shellBackupRun shellFsPre).1 = some [("/h/.zshenv", shellInfoBackupPath)]
    ∧ (runFs shellBackupRun shellFsPre).lookup shellInfoBackupPath
        = some (Entry.file (FileData.text "symlink_target: /old_zshenv"))
    ∧ (runFs shellBackupRun shellFsPre).lookup shellPlainBackupPath = none := by decide

/-- C8 (counterexample): the tmux `main` has no `KeyboardInterrupt`
handler — on SIGINT it sets no exit code itself (the interpreter's
unhandled-exception status applies), so the uniform 130 the claim states
does not hold for every tool. -/
theorem c8_tmux_sigint_no_130_exit :
    tmuxMainExit OpOutcome.interrupted ≠ some 130
    ∧ tmuxMainExit OpOutcome.interrupted = none := by decide

/-- C8 (amended): every modelled `main` exits 0 on a returned success and
1 on a returned failure; only setup-btop installs the
`except KeyboardInterrupt: sys.exit(130)` handler, while the tmux, shell
and mako mains leave SIGINT unhandled. -/
theorem c8_exit_code_dispatch :
    btopMainExit OpOutcome.success = some 0
    ∧ btopMainExit OpOutcome.failure = some 1
    ∧ btopMainExit OpOutcome.interrupted = some 130
    ∧ tmuxMainExit OpOutcome.success = some 0
    ∧ tmuxMainExit OpOutcome.failure = some 1
    ∧ tmuxMainExit OpOutcome.interrupted = none
    ∧ shellMainExit OpOutcome.success = some 0
    ∧ shellMainExit OpOutcome.failure = some 1
    ∧ shellMainExit OpOutcome.interrupted = none
    ∧ makoMainExit OpOutcome.success = some 0
    ∧ makoMainExit OpOutcome.failure = some 1
    ∧ makoMainExit OpOutcome.interrupted = none := by decide

/-- A filesystem holding only `~/.config/hypr/hyprland.conf` as a plain
text file with content `c`. -/
def hyprFs (c : String) : Fs :=
  [(MakoSetup.hyprland_config makoCtx, Entry.file (FileData.text c))]

/-- One run of `update_hyprland_config` on a plain `hyprland.conf`:
identity when `exec-once = mako` is already a substring, otherwise it
appends the mako block. -/
theorem mako_update_char (c : String) :
    makoCtx.update_hyprland_config (hyprFs c) =
      (some (),
       if hasSubL MakoSetup.makoPattern.data c.data then hyprFs c
       else [(MakoSetup.hyprland_config makoCtx,
              Entry.file (FileData.text (c ++ MakoSetup.makoAppendix)))]) := by
  cases h : hasSubL MakoSetup.makoPattern.data c.data with
  | true =>
    simp [MakoSetup.update_hyprland_config, hyprFs, Fs.existsP, Fs.resolve, Fs.resolveAux,
          Fs.lookup, readData, FsM.attempt, h, makoCtx, MakoSetup.hyprland_config]
  | false =>
    simp [MakoSetup.update_hyprland_config, hyprFs, Fs.existsP, Fs.resolve, Fs.resolveAux,
          Fs.lookup, readData, appendText, Fs.insert, Fs.erase, FsM.attempt, h,
          makoCtx, MakoSetup.hyprland_config]

/-- C9: updating the Hyprland configuration is idempotent — whatever the
starting content, running `update_hyprland_config` a second time changes
nothing (the appended block itself contains `exec-once = mako`), and when
the line is already present the first run already changes nothing. -/
theorem c9_hyprland_update_idempotent (c : String) :
    runFs makoCtx.update_hyprland_config (runFs makoCtx.update_hyprland_config (hyprFs c))
      = runFs makoCtx.update_hyprland_config (hyprFs c)
    ∧ (hasSubL MakoSetup.makoPattern.data c.data = true →
       runFs makoCtx.update_hyprland_config (hyprFs c) = hyprFs c) := by
  constructor
  · cases h : hasSubL MakoSetup.makoPattern.data c.data with
    | true => simp [runFs, mako_update_char, h]
    | false =>
      have h2 : hasSubL MakoSetup.makoPattern.data (c.data ++ MakoSetup.makoAppendix.data) = true :=
        hasSubL_append_right _ _ _ (by decide)
      have e1 : runFs makoCtx.update_hyprland_config (hyprFs c)
          = [(MakoSetup.hyprland_config makoCtx,
              Entry.file (FileData.text (c ++ MakoSetup.makoAppendix)))] := by
        simp [runFs, mako_update_char, h]
      rw [e1]
      have e2 := mako_update_char (c ++ MakoSetup.makoAppendix)
      simpa [runFs, hyprFs, h2, string_data_append] using congrArg Prod.snd e2
  · intro h
    simp [runFs, mako_update_char, h]

/-- C9 (witness): idempotence evaluated on a configuration that already
contains the line. -/
theorem c9_hyprland_update_idempotent_witness :
    hasSubL MakoSetup.makoPattern.data ("abc\nexec-once = mako\n").data = true
    ∧ runFs makoCtx.update_hyprland_config (hyprFs "abc\nexec-once = mako\n")
        = hyprFs "abc\nexec-once = mako\n" :=
  ⟨by decide, (c9_hyprland_update_idempotent "abc\nexec-once = mako\n").2 (by decide)⟩

/-- C10: the symlink-removal phase of the tmux rollback unlinks a
recorded target only when a symlink occupies it — a plain file or
directory that replaced the target after setup is never deleted: with a
recorded backup it is overwritten in place (file) or receives the copy
inside itself (directory), and with no recorded backup it is left
exactly as found; only a symlink occupant is removed. -/
theorem c10_rollback_removes_only_symlinks (d : FileData) (c : String) :
    (runFs tmuxCtx.rollback (c10Fs (Entry.file d))).lookup tmuxTgtConf
        = some (Entry.file (FileData.text "b"))
    ∧ (runFs tmuxCtx.rollback (c10Fs (Entry.dir c))).lookup tmuxTgtConf
        = some (Entry.dir c)
    ∧ (runFs tmuxCtx.rollback (c10FsNB (Entry.file d))).lookup tmuxTgtConf
        = some (Entry.file d)
    ∧ (runFs tmuxCtx.rollback (c10FsNB (Entry.dir c))).lookup tmuxTgtConf
        = some (Entry.dir c)
    ∧ (runFs tmuxCtx.rollback c10FsSym).lookup tmuxTgtConf
        = some (Entry.file (FileData.text "b")) :=
  ⟨rfl, rfl, rfl, rfl, by decide⟩

/-- C10 (witness): the statement evaluated at concrete occupant data. -/
theorem c10_rollback_removes_only_symlinks_witness :
    (runFs tmuxCtx.rollback (c10Fs (Entry.file (FileData.text "z")))).lookup tmuxTgtConf
        = some (Entry.file (FileData.text "b"))
    ∧ (runFs tmuxCtx.rollback (c10Fs (Entry.dir "zz"))).lookup tmuxTgtConf
        = some (Entry.dir "zz")
    ∧ (runFs tmuxCtx.rollback (c10FsNB (Entry.file (FileData.text "z")))).lookup tmuxTgtConf
        = some (Entry.file (FileData.text "z"))
    ∧ (runFs tmuxCtx.rollback (c10FsNB (Entry.dir "zz"))).lookup tmuxTgtConf
        = some (Entry.dir "zz")
    ∧ (runFs tmuxCtx.rollback c10FsSym).lookup tmuxTgtConf
        = some (Entry.file (FileData.text "b")) :=
  c10_rollback_removes_only_symlinks (FileData.text "z") "zz"

end Dotfiles
